import Mathlib

/-!
# Verification of `seed_selector_int.py`

Shallow embedding of the ComfyUI seed-selector nodes and proofs about them.

The source file defines three node classes — `SeedSelectorInt`,
`MySeedSelectorInt`, `SeedSelectorIntWithDisplay` — each with its own
class-level dictionary `_previous_seeds`, an `IS_CHANGED` hook returning
`float("nan")`, and a `select` execution method that reads the previous seed
for the node's `unique_id` (defaulting to 0), stores the current seed when
`unique_id` is not `None`, and packages the outputs.  `SeedSelectorInt` also
has a `_randint_inclusive` helper built on `secrets.randbelow`.

Modelling conventions:
* Python unbounded integers are `Int`; `int(x)` on an int is the identity.
* A node identifier (`unique_id`) is `Option Nat`: `none` is Python `None`,
  `some k` an opaque host-assigned id.  A class's `_previous_seeds` dict is a
  `Tracker`, a finite-support map from identifiers to stored seeds, encoded
  as a function `Option Nat → Option Int` (`none` result = key absent).
* `secrets.randbelow n` draws uniformly from `[0, n)` and raises
  `ValueError` when `n ≤ 0`; it is modelled as a function of an oracle value
  `draw : Nat` (the randomness consumed), returning `Option Nat` with `none`
  for the raised error.  Every value in `[0, n)` is realised by some draw.
* Each `select` method runs inside a process that owns the random source, so
  its embedding takes the oracle `rng : Nat` as an argument; the bodies never
  consult it, mirroring that no `secrets` call occurs inside `select`.
* A ComfyUI execution method may return either a dict
  `{"ui": {...}, "result": (...)}` or a bare tuple (which the host treats as
  a result with no UI payload).  This channel is `HostReturn ρ` with
  `ui : Option UiPayload`; a Python dict literal is an association list in
  insertion order.
-/

def INT32_MAX : Int := 2147483647

/-- Model of `secrets.randbelow n` for a given oracle draw: a uniform value in
`[0, n)` when `0 < n` (every such value is `draw % n` for some draw),
`none` (the `ValueError` branch) when `n ≤ 0`. -/
def randbelow (n : Nat) (draw : Nat) : Option Nat :=
  if 0 < n then some (draw % n) else none

/-- Embedding of `SeedSelectorInt._randint_inclusive`: clamp `max_val` into
`[0, INT32_MAX]`, then `randbelow(max_val + 1)` if `max_val < INT32_MAX`
else `randbelow(INT32_MAX)`. -/
def randint_inclusive (max_val : Int) (draw : Nat) : Option Nat :=
  let m : Int := max 0 (min max_val INT32_MAX)
  if m < INT32_MAX then randbelow (m + 1).toNat draw else randbelow INT32_MAX.toNat draw

/-- A node identifier as passed in `unique_id`: `none` is Python `None`. -/
abbrev Key := Option Nat

/-- A class-level `_previous_seeds` dictionary. -/
abbrev Tracker := Key → Option Int

/-- The empty dictionary `{}` each class starts with. -/
def emptyT : Tracker := fun _ => none

/-- Dictionary read `d.get(u, 0)`. -/
def trackGet (st : Tracker) (u : Key) : Int := (st u).getD 0

/-- Dictionary write `d[u] = v`. -/
def trackSet (st : Tracker) (u : Key) (v : Int) : Tracker :=
  fun u' => if u' = u then some v else st u'

/-- A value occurring in a `ui` dictionary list. -/
inductive UiVal where
  | int (n : Int)
  | str (s : String)
deriving DecidableEq

/-- A `"ui"` dictionary: field name ↦ list of values, in insertion order. -/
abbrev UiPayload := List (String × List UiVal)

/-- What the host receives from an execution method: an optional `"ui"`
payload and the `"result"` output tuple.  A method that returns a bare
tuple yields `ui = none`. -/
structure HostReturn (ρ : Type) where
  ui : Option UiPayload
  result : ρ
deriving DecidableEq

/-- The host wraps a bare-tuple return as a result with no UI payload. -/
def tupleReturn {ρ : Type} (r : ρ) : HostReturn ρ := ⟨none, r⟩

-- ### The sampler claims (C2, C6, C10)

/-- Closed form of `randint_inclusive`: the `randbelow` error branch never
fires, and the result is the draw reduced modulo the selected range size. -/
lemma randint_inclusive_eq (m : Int) (d : Nat) :
    randint_inclusive m d =
      if max 0 (min m INT32_MAX) < INT32_MAX
      then some (d % (max 0 (min m INT32_MAX) + 1).toNat)
      else some (d % INT32_MAX.toNat) := by
  have h0 : (0 : Int) ≤ max 0 (min m INT32_MAX) := le_max_left _ _
  simp only [randint_inclusive, randbelow, INT32_MAX] at *
  by_cases h : (0 : Int) ⊔ (m ⊓ 2147483647) < 2147483647
  · rw [if_pos h, if_pos h, if_pos (by omega)]
  · rw [if_neg h, if_neg h, if_pos (by omega)]

/-- C10: `_randint_inclusive` is total: for every integer bound the clamp
makes the argument of `randbelow` at least 1, so the `ValueError` branch is
unreachable; and every bound `m ≤ 0` clamps to 0 and yields exactly 0. -/
theorem randint_inclusive_total (m : Int) (d : Nat) :
    (∃ res, randint_inclusive m d = some res) ∧
      (m ≤ 0 → randint_inclusive m d = some 0) := by
  constructor
  · by_cases h : max 0 (min m INT32_MAX) < INT32_MAX
    · exact ⟨_, by rw [randint_inclusive_eq, if_pos h]⟩
    · exact ⟨_, by rw [randint_inclusive_eq, if_neg h]⟩
  · intro hm
    have hc : max 0 (min m INT32_MAX) = 0 := by simp only [INT32_MAX]; omega
    rw [randint_inclusive_eq, hc, if_pos (by norm_num [INT32_MAX])]
    simp [Nat.mod_one]

/-- Witness for C10 at the concrete bound −3 and draw 11. -/
theorem randint_inclusive_total_witness :
    randint_inclusive (-3) 11 = some 0 :=
  (randint_inclusive_total (-3) 11).2 (by decide)

/-- C6: for every bound strictly above `INT32_MAX`, the sampler agrees with
the sampler at `INT32_MAX` on every draw of the random source. -/
theorem randint_inclusive_clamp_high (m : Int) (d : Nat)
    (h : INT32_MAX < m) :
    randint_inclusive m d = randint_inclusive INT32_MAX d := by
  rw [randint_inclusive_eq, randint_inclusive_eq]
  have h1 : max 0 (min m INT32_MAX) = INT32_MAX := by
    simp only [INT32_MAX] at *; omega
  have h2 : max 0 (min INT32_MAX INT32_MAX) = INT32_MAX := by
    simp only [INT32_MAX]; omega
  rw [h1, h2]

/-- Witness for C6 at the concrete bound `2^31` and draw 7. -/
theorem randint_inclusive_clamp_high_witness :
    randint_inclusive 2147483648 7 = randint_inclusive INT32_MAX 7 :=
  randint_inclusive_clamp_high 2147483648 7 (by decide)

/-- C2 (code bug evidence): at the bound `max_val = INT32_MAX` the code
takes the `randbelow(INT32_MAX)` branch, so every draw yields a value
strictly below `INT32_MAX`: the inclusive upper bound is never attained,
contradicting the function's own name `_randint_inclusive` and the spec's
requirement that a request for `M` can return `M`. -/
theorem randint_at_int32_max_never_max (d : Nat) :
    ∃ res, randint_inclusive INT32_MAX d = some res ∧ res < INT32_MAX.toNat := by
  refine ⟨d % INT32_MAX.toNat, ?_, Nat.mod_lt _ (by norm_num [INT32_MAX])⟩
  rw [randint_inclusive_eq, if_neg (by norm_num [INT32_MAX])]

-- ### The three node classes

/-- A Python float as far as this code observes it: `float("nan")` or an
ordinary comparable value. -/
inductive PyFloat where
  | nan
  | finite (q : Rat)
deriving DecidableEq

/-- Python `==` on floats (IEEE 754): a NaN operand compares unequal to
everything, itself included. -/
def PyFloat.pyEq : PyFloat → PyFloat → Bool
  | .nan, _ => false
  | _, .nan => false
  | .finite a, .finite b => a == b

/-- Hook `SeedSelectorInt.IS_CHANGED(cls, seed, **kwargs)`: returns
`float("nan")` regardless of its arguments. -/
def SeedSelectorInt.IS_CHANGED (seed : Int) : PyFloat := PyFloat.nan

/-- Hook `MySeedSelectorInt.IS_CHANGED(cls, **kwargs)`: returns `float("nan")`. -/
def MySeedSelectorInt.IS_CHANGED : PyFloat := PyFloat.nan

/-- Hook `SeedSelectorIntWithDisplay.IS_CHANGED(cls, seed, **kwargs)`: returns
`float("nan")`. -/
def SeedSelectorIntWithDisplay.IS_CHANGED (seed : Int) : PyFloat := PyFloat.nan

/-- Method `SeedSelectorInt.select(seed, max_val, unique_id, extra_pnginfo)` acting
on this class's `_previous_seeds` dictionary `st`; `rng` is the unused
ambient random source.  Reads the previous seed (default 0), stores the
current seed when `unique_id` is not `None`, and returns
`{"ui": {"seed": [seed], "previous_seed": [prev]}, "result": (seed, prev)}`
together with the updated dictionary. -/
def SeedSelectorInt.select (st : Tracker) (seed : Int) (max_val : Int)
    (unique_id : Key) (extra_pnginfo : Option Unit) (rng : Nat) :
    HostReturn (Int × Int) × Tracker :=
  let previous_seed : Int := trackGet st unique_id
  let st' : Tracker := if unique_id ≠ none then trackSet st unique_id seed else st
  (⟨some [("seed", [UiVal.int seed]), ("previous_seed", [UiVal.int previous_seed])],
    (seed, previous_seed)⟩, st')

/-- Method `MySeedSelectorInt.select(seed, control_after_generate, unique_id,
extra_pnginfo)` on this class's own `_previous_seeds` dictionary: same
tracker logic, result `(seed, prev, debug_msg)` with the debug string
`"seed=S | previous=P | mode=M"`, and a `ui` payload carrying
`seed_value`, `previous_seed_value` and `text`. -/
def MySeedSelectorInt.select (st : Tracker) (seed : Int)
    (control_after_generate : String) (unique_id : Key)
    (extra_pnginfo : Option Unit) (rng : Nat) :
    HostReturn (Int × Int × String) × Tracker :=
  let previous_seed : Int := trackGet st unique_id
  let st' : Tracker := if unique_id ≠ none then trackSet st unique_id seed else st
  let debug_msg : String :=
    "seed=" ++ toString seed ++ " | previous=" ++ toString previous_seed ++
      " | mode=" ++ control_after_generate
  (⟨some [("seed_value", [UiVal.int seed]),
          ("previous_seed_value", [UiVal.int previous_seed]),
          ("text", [UiVal.str debug_msg])],
    (seed, previous_seed, debug_msg)⟩, st')

/-- Method `SeedSelectorIntWithDisplay.select(seed, max_val, unique_id,
extra_pnginfo)` on this class's own `_previous_seeds` dictionary: same
tracker logic, returning the bare tuple
`(seed, prev, "Current: S", "Previous: P")` — no `ui` dictionary. -/
def SeedSelectorIntWithDisplay.select (st : Tracker) (seed : Int)
    (max_val : Int) (unique_id : Key) (extra_pnginfo : Option Unit)
    (rng : Nat) : (Int × Int × String × String) × Tracker :=
  let previous_seed : Int := trackGet st unique_id
  let st' : Tracker := if unique_id ≠ none then trackSet st unique_id seed else st
  ((seed, previous_seed,
    "Current: " ++ toString seed, "Previous: " ++ toString previous_seed), st')

/-- View of `SeedSelectorIntWithDisplay.select` as the host sees it: a bare tuple
return carries no UI payload. -/
def SeedSelectorIntWithDisplay.selectHost (st : Tracker) (seed : Int)
    (max_val : Int) (unique_id : Key) (extra_pnginfo : Option Unit)
    (rng : Nat) : HostReturn (Int × Int × String × String) × Tracker :=
  let o := SeedSelectorIntWithDisplay.select st seed max_val unique_id extra_pnginfo rng
  (tupleReturn o.1, o.2)

/-- The process-wide state relevant to the three classes: the three distinct
class-level `_previous_seeds` dictionaries, in source order
(`SeedSelectorInt`, `MySeedSelectorInt`, `SeedSelectorIntWithDisplay`). -/
structure World where
  t1 : Tracker
  t2 : Tracker
  t3 : Tracker

/-- Process start: all three class dictionaries are empty. -/
def World.start : World := ⟨emptyT, emptyT, emptyT⟩

/-- Executing `SeedSelectorInt.select` inside the process. -/
def World.step1 (w : World) (seed max_val : Int) (u : Key)
    (e : Option Unit) (r : Nat) : HostReturn (Int × Int) × World :=
  let o := SeedSelectorInt.select w.t1 seed max_val u e r
  (o.1, { w with t1 := o.2 })

/-- Executing `MySeedSelectorInt.select` inside the process. -/
def World.step2 (w : World) (seed : Int) (mode : String) (u : Key)
    (e : Option Unit) (r : Nat) : HostReturn (Int × Int × String) × World :=
  let o := MySeedSelectorInt.select w.t2 seed mode u e r
  (o.1, { w with t2 := o.2 })

/-- Executing `SeedSelectorIntWithDisplay.select` inside the process. -/
def World.step3 (w : World) (seed max_val : Int) (u : Key)
    (e : Option Unit) (r : Nat) : (Int × Int × String × String) × World :=
  let o := SeedSelectorIntWithDisplay.select w.t3 seed max_val u e r
  (o.1, { w with t3 := o.2 })

-- ### Repeated-call runs

/-- Previous-seed outputs of a run of `SeedSelectorInt.select` calls with a
fixed identifier `some k`, one per seed in the list. -/
def prevOutputs1 (mv : Int) (e : Option Unit) (r : Nat) (k : Nat) :
    Tracker → List Int → List Int
  | _, [] => []
  | st, s :: rest =>
    let o := SeedSelectorInt.select st s mv (some k) e r
    o.1.result.2 :: prevOutputs1 mv e r k o.2 rest

/-- Previous-seed outputs of a run of `MySeedSelectorInt.select` calls with
a fixed identifier `some k`. -/
def prevOutputs2 (mode : String) (e : Option Unit) (r : Nat) (k : Nat) :
    Tracker → List Int → List Int
  | _, [] => []
  | st, s :: rest =>
    let o := MySeedSelectorInt.select st s mode (some k) e r
    o.1.result.2.1 :: prevOutputs2 mode e r k o.2 rest

/-- Previous-seed outputs of a run of `SeedSelectorIntWithDisplay.select`
calls with a fixed identifier `some k`. -/
def prevOutputs3 (mv : Int) (e : Option Unit) (r : Nat) (k : Nat) :
    Tracker → List Int → List Int
  | _, [] => []
  | st, s :: rest =>
    let o := SeedSelectorIntWithDisplay.select st s mv (some k) e r
    o.1.2.1 :: prevOutputs3 mv e r k o.2 rest

/-- The previous-seed values observed by the calls carrying identifier
`some k` inside an interleaved run of `SeedSelectorInt.select` calls with
arbitrary identifiers. -/
def seenBy1 (mv : Int) (e : Option Unit) (r : Nat) (k : Nat) :
    Tracker → List (Key × Int) → List Int
  | _, [] => []
  | st, (u, s) :: rest =>
    let o := SeedSelectorInt.select st s mv u e r
    (if u = some k then [o.1.result.2] else []) ++ seenBy1 mv e r k o.2 rest

-- ### Tracker lemmas

lemma trackGet_set_same (st : Tracker) (u : Key) (v : Int) :
    trackGet (trackSet st u v) u = v := by
  simp [trackGet, trackSet]

lemma trackSet_ne (st : Tracker) (u u' : Key) (v : Int) (h : u' ≠ u) :
    trackSet st u v u' = st u' := by
  simp [trackSet, h]

/-- The dictionary after `SeedSelectorInt.select` with a real identifier. -/
lemma select1_state (st : Tracker) (s mv : Int) (k : Nat) (e : Option Unit)
    (r : Nat) :
    (SeedSelectorInt.select st s mv (some k) e r).2 = trackSet st (some k) s :=
  rfl

/-- A `SeedSelectorInt.select` call with an identifier other than `some k`
does not change the entry stored under `some k`. -/
lemma select1_frame (st : Tracker) (s mv : Int) (u : Key) (e : Option Unit)
    (r : Nat) (k : Nat) (h : u ≠ some k) :
    (SeedSelectorInt.select st s mv u e r).2 (some k) = st (some k) := by
  cases u with
  | none => rfl
  | some k1 =>
    have hne : (some k : Key) ≠ some k1 := fun hh => h hh.symm
    show trackSet st (some k1) s (some k) = st (some k)
    exact trackSet_ne st (some k1) (some k) s hne

lemma prevOutputs1_cons (mv : Int) (e : Option Unit) (r : Nat) (k : Nat)
    (st : Tracker) (s0 : Int) (rest : List Int) :
    prevOutputs1 mv e r k st (s0 :: rest)
      = trackGet st (some k) :: (s0 :: rest).dropLast := by
  induction rest generalizing st s0 with
  | nil => rfl
  | cons s1 rest ih =>
    show trackGet st (some k)
          :: prevOutputs1 mv e r k (trackSet st (some k) s0) (s1 :: rest)
        = trackGet st (some k) :: s0 :: (s1 :: rest).dropLast
    rw [ih, trackGet_set_same]

lemma prevOutputs2_cons (mode : String) (e : Option Unit) (r : Nat) (k : Nat)
    (st : Tracker) (s0 : Int) (rest : List Int) :
    prevOutputs2 mode e r k st (s0 :: rest)
      = trackGet st (some k) :: (s0 :: rest).dropLast := by
  induction rest generalizing st s0 with
  | nil => rfl
  | cons s1 rest ih =>
    show trackGet st (some k)
          :: prevOutputs2 mode e r k (trackSet st (some k) s0) (s1 :: rest)
        = trackGet st (some k) :: s0 :: (s1 :: rest).dropLast
    rw [ih, trackGet_set_same]

lemma prevOutputs3_cons (mv : Int) (e : Option Unit) (r : Nat) (k : Nat)
    (st : Tracker) (s0 : Int) (rest : List Int) :
    prevOutputs3 mv e r k st (s0 :: rest)
      = trackGet st (some k) :: (s0 :: rest).dropLast := by
  induction rest generalizing st s0 with
  | nil => rfl
  | cons s1 rest ih =>
    show trackGet st (some k)
          :: prevOutputs3 mv e r k (trackSet st (some k) s0) (s1 :: rest)
        = trackGet st (some k) :: s0 :: (s1 :: rest).dropLast
    rw [ih, trackGet_set_same]

/-- A run with a fixed identifier reads only the entry under that
identifier: trackers agreeing there produce the same outputs. -/
lemma prevOutputs1_congr (mv : Int) (e : Option Unit) (r : Nat) (k : Nat)
    (seeds : List Int) : ∀ st st' : Tracker,
    st (some k) = st' (some k) →
    prevOutputs1 mv e r k st seeds = prevOutputs1 mv e r k st' seeds := by
  induction seeds with
  | nil => intro st st' _; rfl
  | cons s rest ih =>
    intro st st' h
    show trackGet st (some k)
          :: prevOutputs1 mv e r k (trackSet st (some k) s) rest
        = trackGet st' (some k)
          :: prevOutputs1 mv e r k (trackSet st' (some k) s) rest
    rw [show trackGet st (some k) = trackGet st' (some k) from by
          simp [trackGet, h]]
    exact congrArg _ (ih _ _ (by simp [trackSet]))

/-- Unfolding step for `seenBy1`. -/
lemma seenBy1_cons (mv : Int) (e : Option Unit) (r : Nat) (k : Nat)
    (st : Tracker) (u : Key) (s : Int) (rest : List (Key × Int)) :
    seenBy1 mv e r k st ((u, s) :: rest)
      = (if u = some k
          then [(SeedSelectorInt.select st s mv u e r).1.result.2] else [])
          ++ seenBy1 mv e r k (SeedSelectorInt.select st s mv u e r).2 rest :=
  rfl

/-- In an interleaved run, the calls carrying identifier `some k` observe
exactly the outputs of the run of their own calls alone. -/
lemma seenBy1_eq_filtered (mv : Int) (e : Option Unit) (r : Nat) (k : Nat)
    (calls : List (Key × Int)) : ∀ st : Tracker,
    seenBy1 mv e r k st calls
      = prevOutputs1 mv e r k st
          ((calls.filter fun c => c.1 == some k).map Prod.snd) := by
  induction calls with
  | nil => intro st; rfl
  | cons c rest ih =>
    obtain ⟨u, s⟩ := c
    intro st
    rw [seenBy1_cons]
    by_cases hu : u = some k
    · subst hu
      rw [if_pos rfl, ih]
      have hf : (((some k, s) :: rest).filter fun c => c.1 == some k)
          = (some k, s) :: rest.filter fun c => c.1 == some k := by
        simp [List.filter]
      rw [hf]
      show (SeedSelectorInt.select st s mv (some k) e r).1.result.2
            :: prevOutputs1 mv e r k (SeedSelectorInt.select st s mv (some k) e r).2
                 (List.map Prod.snd (rest.filter fun c => c.1 == some k))
          = trackGet st (some k)
            :: prevOutputs1 mv e r k (trackSet st (some k) s)
                 (List.map Prod.snd (rest.filter fun c => c.1 == some k))
      rfl
    · rw [if_neg hu, ih]
      have hb : (u == some k) = false := by simp [hu]
      have hf : (((u, s) :: rest).filter fun c => c.1 == some k)
          = rest.filter fun c => c.1 == some k := by
        simp [List.filter, hb]
      rw [hf]
      exact prevOutputs1_congr mv e r k _ _ _
        (select1_frame st s mv u e r k hu)

-- ### Claim theorems

/-- C1: for every identifier `K = some k` with no prior tracker entry and
every non-empty sequence of calls on the same variant with seeds
`S1, …, Sn`, the first call returns `previous_seed = 0` and the i-th call
(i > 1) returns `S_(i-1)` — i.e. the outputs are `0 :: [S1, …, S_(n-1)]`;
this holds for all three variants. -/
theorem previous_seed_history (st : Tracker) (k : Nat) (s0 : Int)
    (rest : List Int) (mv : Int) (mode : String) (e : Option Unit) (r : Nat)
    (h : st (some k) = none) :
    prevOutputs1 mv e r k st (s0 :: rest) = 0 :: (s0 :: rest).dropLast
    ∧ prevOutputs2 mode e r k st (s0 :: rest) = 0 :: (s0 :: rest).dropLast
    ∧ prevOutputs3 mv e r k st (s0 :: rest) = 0 :: (s0 :: rest).dropLast := by
  have hg : trackGet st (some k) = 0 := by simp [trackGet, h]
  exact ⟨by rw [prevOutputs1_cons, hg], by rw [prevOutputs2_cons, hg],
    by rw [prevOutputs3_cons, hg]⟩

/-- Witness for C1: fresh identifier 0, seeds 42 then 7 give outputs
`[0, 42]` on each variant. -/
theorem previous_seed_history_witness :
    prevOutputs1 INT32_MAX none 0 0 emptyT (42 :: [7])
      = 0 :: ((42 : Int) :: [7]).dropLast
    ∧ prevOutputs2 "randomize" none 0 0 emptyT (42 :: [7])
      = 0 :: ((42 : Int) :: [7]).dropLast
    ∧ prevOutputs3 INT32_MAX none 0 0 emptyT (42 :: [7])
      = 0 :: ((42 : Int) :: [7]).dropLast :=
  previous_seed_history emptyT 0 42 [7] INT32_MAX "randomize" none 0 rfl

/-- C3 counterexample: the three classes do not share one tracker.  From
process start, running `SeedSelectorInt` with (identifier 0, seed 5) and
then `MySeedSelectorInt` with (identifier 0, seed 9) returns
`previous_seed = 0`, not the 5 the claim demands. -/
theorem shared_tracker_counterexample :
    ((World.start.step1 5 INT32_MAX (some 0) none 0).2.step2 9 "randomize"
        (some 0) none 0).1.result.2.1 = 0
    ∧ ((World.start.step1 5 INT32_MAX (some 0) none 0).2.step2 9 "randomize"
        (some 0) none 0).1.result.2.1 ≠ 5 := by
  constructor
  · rfl
  · intro hh
    exact absurd hh (by decide)

/-- C3 amended: each variant has its own process-wide tracker.  A call on
one variant leaves the other two variants' trackers unchanged, so a
subsequent call on a different variant reads its own (unaffected) tracker;
and a second call on the *same* variant with the same identifier does
return the first call's seed. -/
theorem per_variant_trackers (w : World) (k : Nat) (s s2 mv mv2 : Int)
    (mode : String) (e : Option Unit) (r r2 : Nat) :
    ((w.step1 s mv (some k) e r).2.t2 = w.t2
      ∧ (w.step1 s mv (some k) e r).2.t3 = w.t3
      ∧ ((w.step1 s mv (some k) e r).2.step1 s2 mv2 (some k) e
          r2).1.result.2 = s)
    ∧ ((w.step2 s mode (some k) e r).2.t1 = w.t1
      ∧ (w.step2 s mode (some k) e r).2.t3 = w.t3
      ∧ ((w.step2 s mode (some k) e r).2.step2 s2 mode (some k) e
          r2).1.result.2.1 = s)
    ∧ ((w.step3 s mv (some k) e r).2.t1 = w.t1
      ∧ (w.step3 s mv (some k) e r).2.t2 = w.t2
      ∧ ((w.step3 s mv (some k) e r).2.step3 s2 mv2 (some k) e
          r2).1.2.1 = s) := by
  refine ⟨⟨rfl, rfl, ?_⟩, ⟨rfl, rfl, ?_⟩, ⟨rfl, rfl, ?_⟩⟩
  all_goals
    exact trackGet_set_same _ (some k) s

/-- C4: a call with identifier `some k1` leaves the entry under any other
identifier `some k2` unchanged, on all three variants; consequently, in an
arbitrarily interleaved run of `SeedSelectorInt` calls, the calls carrying
one identifier observe exactly the previous-seed history of their own
calls run alone. -/
theorem distinct_identifiers_independent (mv : Int) (mode : String)
    (e : Option Unit) (r : Nat) (st : Tracker) (s : Int) (k1 k2 : Nat)
    (h : k1 ≠ k2) :
    ((SeedSelectorInt.select st s mv (some k1) e r).2 (some k2)
        = st (some k2)
      ∧ (MySeedSelectorInt.select st s mode (some k1) e r).2 (some k2)
        = st (some k2)
      ∧ (SeedSelectorIntWithDisplay.select st s mv (some k1) e r).2 (some k2)
        = st (some k2))
    ∧ ∀ (st0 : Tracker) (calls : List (Key × Int)),
        seenBy1 mv e r k1 st0 calls
          = prevOutputs1 mv e r k1 st0
              ((calls.filter fun c => c.1 == some k1).map Prod.snd) := by
  have hk : (some k1 : Key) ≠ some k2 := by
    intro hh; exact h (Option.some_injective _ hh)
  have hfr : trackSet st (some k1) s (some k2) = st (some k2) :=
    trackSet_ne st (some k1) (some k2) s (fun hh => hk hh.symm)
  exact ⟨⟨hfr, hfr, hfr⟩, fun st0 calls => seenBy1_eq_filtered mv e r k1 calls st0⟩

/-- Witness for C4 at identifiers 1 and 2. -/
theorem distinct_identifiers_independent_witness :
    ((SeedSelectorInt.select emptyT 5 INT32_MAX (some 1) none 0).2 (some 2)
        = emptyT (some 2)
      ∧ (MySeedSelectorInt.select emptyT 5 "fixed" (some 1) none 0).2 (some 2)
        = emptyT (some 2)
      ∧ (SeedSelectorIntWithDisplay.select emptyT 5 INT32_MAX (some 1) none
          0).2 (some 2) = emptyT (some 2))
    ∧ ∀ (st0 : Tracker) (calls : List (Key × Int)),
        seenBy1 INT32_MAX none 0 1 st0 calls
          = prevOutputs1 INT32_MAX none 0 1 st0
              ((calls.filter fun c => c.1 == some 1).map Prod.snd) :=
  distinct_identifiers_independent INT32_MAX "fixed" none 0 emptyT 5 1 2
    (by decide)

/-- C5: with `unique_id = None` (and no entry stored under `None`, which no
reachable state has, since `select` never writes that key), each variant
returns `previous_seed = 0` and leaves its tracker exactly as it was; in
particular two successive identifier-less calls (seeds `s`, `s2`) both
return 0 and the tracker is unchanged throughout. -/
theorem none_identifier_no_persistence (st : Tracker) (s s2 mv : Int)
    (mode : String) (e : Option Unit) (r : Nat) (h : st none = none) :
    ((SeedSelectorInt.select st s mv none e r).1.result.2 = 0
      ∧ (SeedSelectorInt.select st s mv none e r).2 = st)
    ∧ ((MySeedSelectorInt.select st s mode none e r).1.result.2.1 = 0
      ∧ (MySeedSelectorInt.select st s mode none e r).2 = st)
    ∧ ((SeedSelectorIntWithDisplay.select st s mv none e r).1.2.1 = 0
      ∧ (SeedSelectorIntWithDisplay.select st s mv none e r).2 = st)
    ∧ ((SeedSelectorInt.select (SeedSelectorInt.select st s mv none e r).2
          s2 mv none e r).1.result.2 = 0
      ∧ (SeedSelectorInt.select (SeedSelectorInt.select st s mv none e r).2
          s2 mv none e r).2 = st) := by
  have hp : trackGet st none = 0 := by simp [trackGet, h]
  exact ⟨⟨hp, rfl⟩, ⟨hp, rfl⟩, ⟨hp, rfl⟩, ⟨hp, rfl⟩⟩

/-- Witness for C5: two identifier-less calls with seeds 5 then 9 from the
empty tracker. -/
theorem none_identifier_no_persistence_witness :
    ((SeedSelectorInt.select emptyT 5 INT32_MAX none none 0).1.result.2 = 0
      ∧ (SeedSelectorInt.select emptyT 5 INT32_MAX none none 0).2 = emptyT)
    ∧ ((MySeedSelectorInt.select emptyT 5 "fixed" none none 0).1.result.2.1
        = 0
      ∧ (MySeedSelectorInt.select emptyT 5 "fixed" none none 0).2 = emptyT)
    ∧ ((SeedSelectorIntWithDisplay.select emptyT 5 INT32_MAX none none
          0).1.2.1 = 0
      ∧ (SeedSelectorIntWithDisplay.select emptyT 5 INT32_MAX none none 0).2
        = emptyT)
    ∧ ((SeedSelectorInt.select
          (SeedSelectorInt.select emptyT 5 INT32_MAX none none 0).2 9
          INT32_MAX none none 0).1.result.2 = 0
      ∧ (SeedSelectorInt.select
          (SeedSelectorInt.select emptyT 5 INT32_MAX none none 0).2 9
          INT32_MAX none none 0).2 = emptyT) :=
  none_identifier_no_persistence emptyT 5 9 INT32_MAX "fixed" none 0 rfl

/-- C7 counterexample: `SeedSelectorIntWithDisplay.select` returns a bare
tuple, so the host receives no UI side-channel payload from it — at the
concrete input (seed 42, identifier 1) the `ui` component is `none`. -/
theorem display_variant_no_ui_counterexample :
    (SeedSelectorIntWithDisplay.selectHost emptyT 42 INT32_MAX (some 1) none
        0).1.ui = none :=
  rfl

/-- C7 amended: variants 1 and 2 return their declared output tuple plus a
UI payload mirroring exactly the result values (and the debug text for
variant 2); variant 3 returns only its declared 4-tuple, whose display
strings are `"Current: N"` / `"Previous: N"`, with no UI payload. -/
theorem outputs_and_ui_payloads (st : Tracker) (s mv : Int) (mode : String)
    (u : Key) (e : Option Unit) (r : Nat) :
    ((SeedSelectorInt.select st s mv u e r).1.ui
        = some [("seed", [UiVal.int (SeedSelectorInt.select st s mv u e
                  r).1.result.1]),
                ("previous_seed", [UiVal.int (SeedSelectorInt.select st s mv
                  u e r).1.result.2])]
      ∧ (SeedSelectorInt.select st s mv u e r).1.result
        = (s, trackGet st u))
    ∧ ((MySeedSelectorInt.select st s mode u e r).1.ui
        = some [("seed_value", [UiVal.int (MySeedSelectorInt.select st s
                  mode u e r).1.result.1]),
                ("previous_seed_value", [UiVal.int (MySeedSelectorInt.select
                  st s mode u e r).1.result.2.1]),
                ("text", [UiVal.str (MySeedSelectorInt.select st s mode u e
                  r).1.result.2.2])]
      ∧ (MySeedSelectorInt.select st s mode u e r).1.result
        = (s, trackGet st u,
            "seed=" ++ toString s ++ " | previous="
              ++ toString (trackGet st u) ++ " | mode=" ++ mode))
    ∧ ((SeedSelectorIntWithDisplay.selectHost st s mv u e r).1.ui = none
      ∧ (SeedSelectorIntWithDisplay.selectHost st s mv u e r).1.result
        = (s, trackGet st u, "Current: " ++ toString s,
            "Previous: " ++ toString (trackGet st u))) :=
  ⟨⟨rfl, rfl⟩, ⟨rfl, rfl⟩, ⟨rfl, rfl⟩⟩

/-- C8: every variant's `IS_CHANGED` returns `float("nan")`, which Python
`==` declares unequal to every float — itself included — so a comparison
with a cached previous result never signals equality. -/
theorem is_changed_nan_incomparable (s s2 : Int) (x : PyFloat) :
    ((SeedSelectorInt.IS_CHANGED s).pyEq x = false
      ∧ x.pyEq (SeedSelectorInt.IS_CHANGED s) = false)
    ∧ (MySeedSelectorInt.IS_CHANGED.pyEq x = false
      ∧ x.pyEq MySeedSelectorInt.IS_CHANGED = false)
    ∧ ((SeedSelectorIntWithDisplay.IS_CHANGED s2).pyEq x = false
      ∧ x.pyEq (SeedSelectorIntWithDisplay.IS_CHANGED s2) = false) := by
  cases x <;> exact ⟨⟨rfl, rfl⟩, ⟨rfl, rfl⟩, ⟨rfl, rfl⟩⟩

/-- C9: each variant's `select` is deterministic and independent of the
ambient random source: on the same tracker state and the same inputs, two
calls with different random-source states produce the same full outcome
(output tuple, UI payload and post-state), because `select` never invokes
the sampler. -/
theorem select_deterministic (st : Tracker) (s mv : Int) (mode : String)
    (u : Key) (e : Option Unit) (r1 r2 : Nat) :
    SeedSelectorInt.select st s mv u e r1
      = SeedSelectorInt.select st s mv u e r2
    ∧ MySeedSelectorInt.select st s mode u e r1
      = MySeedSelectorInt.select st s mode u e r2
    ∧ SeedSelectorIntWithDisplay.select st s mv u e r1
      = SeedSelectorIntWithDisplay.select st s mv u e r2 :=
  ⟨rfl, rfl, rfl⟩
